import Mathlib

/-!
Shallow embedding of the Go tic-tac-toe server (`backend/main.go`) and of the
mark-selection logic of its web client (`frontend/src/components/TicTacToe.tsx`).

Boards are Go `[]string` slices modelled as `List String`; a cell is `""`
(empty), `"X"` or `"O"`.  Go map state (`games`, `connections`) is modelled as
association lists with first-match lookup, which matches map semantics for
every observation through lookup.  Randomness (`rand.Intn`) is modelled as an
explicit stream of draws.  Network writes are modelled as the list of
(connection, message) pairs a handler emits.
-/

/-- Go slice indexing `board[i]` on a board; in the server every indexed board
has length 9 and `i < 9`, where `getD` agrees with Go indexing. -/
def cell (board : List String) (i : Nat) : String := board.getD i ""

/-- The eight winning triples of `checkWin`: 3 rows, 3 columns, 2 diagonals. -/
def winPatterns : List (Nat × Nat × Nat) :=
  [(0, 1, 2), (3, 4, 5), (6, 7, 8),
   (0, 3, 6), (1, 4, 7), (2, 5, 8),
   (0, 4, 8), (2, 4, 6)]

/-- Embeds Go `checkWin`: true iff some winning triple is non-empty and uniform. -/
def checkWin (board : List String) : Bool :=
  winPatterns.any fun p =>
    (cell board p.1 != "") && (cell board p.1 == cell board p.2.1) &&
      (cell board p.2.1 == cell board p.2.2)

/-- Embeds Go `checkDraw`: false as soon as some cell is `""`, else true. -/
def checkDraw (board : List String) : Bool :=
  board.all fun c => c != ""

/-- Embeds Go `nextPlayer`. -/
def nextPlayer (currentPlayer : String) : String :=
  if currentPlayer == "X" then "O" else "X"

/-- Written from the spec's words, for comparison with `checkWin`:
`evaluateWin(board) -> Option<mark>` checks all 8 winning triples and returns
the first complete triple's mark, or none. -/
def evaluateWin (board : List String) : Option String :=
  (winPatterns.find? fun p =>
      (cell board p.1 != "") && (cell board p.1 == cell board p.2.1) &&
        (cell board p.2.1 == cell board p.2.2)).map
    fun p => cell board p.1

/-- Embeds the Go `Game` struct. -/
structure Game where
  Board : List String
  NextPlayer : String
  GameOver : Bool
  Winner : String
deriving DecidableEq, Repr

/-- The game a fresh `handleCreateGame` registers: `&Game{Board: make([]string, 9),
NextPlayer: "X"}` with Go zero values for the remaining fields. -/
def newGame : Game :=
  { Board := List.replicate 9 "", NextPlayer := "X", GameOver := false, Winner := "" }

/-- One outbound broadcast payload of `broadcastGameState`. -/
structure Broadcast where
  type : String
  board : List String
  nextPlayer : String
  gameOver : Bool
  winner : String
deriving DecidableEq, Repr

/-- The shared server state: the `games` and `connections` maps.  Connections
are identified by numbers. -/
structure ServerState where
  games : List (String × Game)
  connections : List (String × List Nat)
deriving DecidableEq, Repr

/-- Go `games[gameID]` read (nil when absent). -/
def lookupGame (s : ServerState) (gameID : String) : Option Game :=
  (s.games.find? fun kv => kv.1 == gameID).map Prod.snd

/-- Go `connections[gameID]` read (nil slice, i.e. `[]`, when absent). -/
def gameConnections (s : ServerState) (gameID : String) : List Nat :=
  ((s.connections.find? fun kv => kv.1 == gameID).map Prod.snd).getD []

/-- Go map update `games[gameID] = g` for a key already present (the only way
the server updates a game: through the pointer obtained from lookup). -/
def setGame (s : ServerState) (gameID : String) (g : Game) : ServerState :=
  { s with games := s.games.map fun kv => if kv.1 == gameID then (kv.1, g) else kv }

/-- Go `connections[gameID] = append(connections[gameID], conn)`. -/
def addConnection (s : ServerState) (gameID : String) (conn : Nat) : ServerState :=
  { s with connections := (gameID, gameConnections s gameID ++ [conn]) :: s.connections }

/-- Embeds Go `broadcastGameState`: builds one message from the current game
state and delivers it to every connection registered for `gameID`; sends
nothing when the game is unknown. -/
def broadcastGameState (s : ServerState) (gameID : String) (messageType : String) :
    List (Nat × Broadcast) :=
  match lookupGame s gameID with
  | none => []
  | some game =>
      (gameConnections s gameID).map fun c =>
        (c, { type := messageType, board := game.Board, nextPlayer := game.NextPlayer,
              gameOver := game.GameOver, winner := game.Winner })

/-- The per-game body of Go `makeMove` once the game is found: the validation
guards in source order, then the mutation and win/draw evaluation.  Returns
the updated game and the `messageType` to broadcast (`none` when the move was
rejected, in which case the game is returned unchanged). -/
def makeMoveGame (game : Game) (position : Int) (symbol : String) :
    Game × Option String :=
  if game.GameOver then (game, none)
  else if position < 0 ∨ 9 ≤ position then (game, none)
  else if cell game.Board position.toNat != "" then (game, none)
  else if symbol != game.NextPlayer then (game, none)
  else
    let board := game.Board.set position.toNat symbol
    let g1 : Game := { game with Board := board, NextPlayer := nextPlayer symbol }
    if checkWin board then
      ({ g1 with GameOver := true, Winner := symbol }, some "GAME_OVER")
    else if checkDraw board then
      ({ g1 with GameOver := true }, some "GAME_OVER")
    else
      (g1, some "MOVE")

/-- Embeds Go `makeMove`: nil-guarded lookup, per-game validation and mutation,
then `broadcastGameState` on the updated state.  Returns the new server state
and the (connection, message) pairs written. -/
def makeMove (s : ServerState) (gameID : String) (position : Int) (symbol : String) :
    ServerState × List (Nat × Broadcast) :=
  match lookupGame s gameID with
  | none => (s, [])
  | some game =>
      match makeMoveGame game position symbol with
      | (_, none) => (s, [])
      | (g2, some t) =>
          let s2 := setGame s gameID g2
          (s2, broadcastGameState s2 gameID t)

/-- The 62-character alphabet of `randomString`. -/
def charset : String := "abcdefghijklmnopqrstuvwxyzABCDEFGHIJKLMNOPQRSTUVWXYZ0123456789"

/-- Embeds Go `randomString`, with the stream of `rand.Intn(62)` draws made
explicit. -/
def randomString (picks : Nat → Fin 62) (length : Nat) : String :=
  String.mk ((List.range length).map fun i => charset.toList.getD (picks i) 'a')

/-- Embeds Go `generateGameID`. -/
def generateGameID (picks : Nat → Fin 62) : String :=
  "game_" ++ randomString picks 6

/-- Embeds Go `handleCreateGame`: generates an id and registers a fresh game
under it (a Go map insert, which overwrites any existing entry; the cons with
first-match lookup models that).  Returns the id sent in the response. -/
def handleCreateGame (picks : Nat → Fin 62) (s : ServerState) : String × ServerState :=
  let gameID := generateGameID picks
  (gameID, { s with games := (gameID, newGame) :: s.games })

/-- Embeds Go `handleJoinGame`: 404 when the id is unknown, 200 otherwise; the
handler only reads the registry. -/
def handleJoinGame (s : ServerState) (gameID : String) : Nat × ServerState :=
  match lookupGame s gameID with
  | none => (404, s)
  | some _ => (200, s)

/-- Embeds the attach phase of Go `handleWebSocket`: existence check (404 and
no messages when unknown), registration of the connection, and the initial
`WriteJSON(game)` push — the serialized `Game` struct itself.  Returns the new
state and the (connection, payload) messages written during attach. -/
def handleWebSocket (s : ServerState) (gameID : String) (conn : Nat) :
    ServerState × List (Nat × Game) :=
  match lookupGame s gameID with
  | none => (s, [])
  | some game =>
      let s2 := addConnection s gameID conn
      (s2, [(conn, game)])

/-- Embeds the client-side game setup of `TicTacToe.tsx`: with a `?game=` URL
parameter the client POSTs join and, on 200, self-assigns mark "O" and opens
the websocket; without the parameter it POSTs create, self-assigns mark "X"
and opens the websocket.  Returns the mark the client ends up playing as
(`none` when join was refused). -/
def clientSetup (s : ServerState) (urlGame : Option String) (conn : Nat)
    (picks : Nat → Fin 62) : ServerState × Option String :=
  match urlGame with
  | some id =>
      let r := handleJoinGame s id
      if r.1 == 200 then
        ((handleWebSocket r.2 id conn).1, some "O")
      else
        (r.2, none)
  | none =>
      let r := handleCreateGame picks s
      ((handleWebSocket r.2 r.1 conn).1, some "X")

/-- Non-empty uniform triple at positions `i, j, k`: the board-level winning
condition the spec describes. -/
def uniformTriple (b : List String) (i j k : Nat) : Prop :=
  cell b i ≠ "" ∧ cell b i = cell b j ∧ cell b j = cell b k

/-! Helper lemmas shared by the claim theorems. -/

lemma find?_isSome_eq_any {α : Type} (p : α → Bool) (l : List α) :
    (l.find? p).isSome = l.any p := by
  induction l with
  | nil => rfl
  | cons a l ih =>
      cases h : p a <;> simp [List.find?_cons, h, ih]

lemma cell_set_self (b : List String) (i : Nat) (v : String) (h : i < b.length) :
    cell (b.set i v) i = v := by
  simp [cell, List.getD_eq_getElem?_getD, List.getElem?_set_eq_of_lt v h]

lemma cell_set_ne (b : List String) (i j : Nat) (v : String) (h : j ≠ i) :
    cell (b.set i v) j = cell b j := by
  simp [cell, List.getD_eq_getElem?_getD, List.getElem?_set_ne (Ne.symm h)]

/-- Accepted-move shape of `makeMoveGame`: when every validation guard passes,
the result is the mutated game with the win/draw evaluation applied. -/
lemma makeMoveGame_accepted (game : Game) (position : Int) (symbol : String)
    (hover : game.GameOver = false)
    (hpos : 0 ≤ position ∧ position < 9)
    (hempty : cell game.Board position.toNat = "")
    (hsym : symbol = game.NextPlayer) :
    makeMoveGame game position symbol =
      (if checkWin (game.Board.set position.toNat symbol) then
        ({ game with
            Board := game.Board.set position.toNat symbol
            NextPlayer := nextPlayer symbol
            GameOver := true
            Winner := symbol }, some "GAME_OVER")
      else if checkDraw (game.Board.set position.toNat symbol) then
        ({ game with
            Board := game.Board.set position.toNat symbol
            NextPlayer := nextPlayer symbol
            GameOver := true }, some "GAME_OVER")
      else
        ({ game with
            Board := game.Board.set position.toNat symbol
            NextPlayer := nextPlayer symbol }, some "MOVE")) := by
  have hnotrange : ¬(position < 0 ∨ 9 ≤ position) := by omega
  simp only [makeMoveGame, hover, Bool.false_eq_true, if_false, if_neg hnotrange,
    hempty, bne_self_eq_false, hsym]

/-- C1: for every 9-cell board, `checkWin` reports a win iff one of the 8
winning triples (rows, columns, diagonals) is non-empty and uniform; the
spec-level `evaluateWin` agrees with `checkWin`, returns a mark occupying a
uniform triple whenever it returns a mark, and returns none on the empty
board. -/
theorem checkWin_correct (b : List String) (hb : b.length = 9) :
    (checkWin b = true ↔
      (uniformTriple b 0 1 2 ∨ uniformTriple b 3 4 5 ∨ uniformTriple b 6 7 8 ∨
       uniformTriple b 0 3 6 ∨ uniformTriple b 1 4 7 ∨ uniformTriple b 2 5 8 ∨
       uniformTriple b 0 4 8 ∨ uniformTriple b 2 4 6))
    ∧ (evaluateWin b).isSome = checkWin b
    ∧ (∀ m, evaluateWin b = some m →
        m ≠ "" ∧ ∃ i j k, uniformTriple b i j k ∧ cell b i = m)
    ∧ evaluateWin (List.replicate 9 "") = none := by
  refine ⟨?_, ?_, ?_, by decide⟩
  · simp only [checkWin, winPatterns, List.any_cons, List.any_nil, Bool.or_eq_true,
      Bool.and_eq_true, bne_iff_ne, beq_iff_eq, uniformTriple, and_assoc,
      Bool.false_eq_true, or_false]
  · simp [evaluateWin, checkWin, Option.isSome_map, find?_isSome_eq_any]
  · intro m hm
    simp only [evaluateWin, Option.map_eq_some'] at hm
    obtain ⟨p, hp, rfl⟩ := hm
    have hpred := List.find?_some hp
    simp only [Bool.and_eq_true, bne_iff_ne, beq_iff_eq] at hpred
    exact ⟨hpred.1.1, p.1, p.2.1, p.2.2, ⟨hpred.1.1, hpred.1.2, hpred.2⟩, rfl⟩

theorem checkWin_correct_witness :
    (["X", "X", "X", "", "", "", "", "", ""] : List String).length = 9 ∧
    (checkWin ["X", "X", "X", "", "", "", "", "", ""] = true ↔
      (uniformTriple ["X", "X", "X", "", "", "", "", "", ""] 0 1 2 ∨
       uniformTriple ["X", "X", "X", "", "", "", "", "", ""] 3 4 5 ∨
       uniformTriple ["X", "X", "X", "", "", "", "", "", ""] 6 7 8 ∨
       uniformTriple ["X", "X", "X", "", "", "", "", "", ""] 0 3 6 ∨
       uniformTriple ["X", "X", "X", "", "", "", "", "", ""] 1 4 7 ∨
       uniformTriple ["X", "X", "X", "", "", "", "", "", ""] 2 5 8 ∨
       uniformTriple ["X", "X", "X", "", "", "", "", "", ""] 0 4 8 ∨
       uniformTriple ["X", "X", "X", "", "", "", "", "", ""] 2 4 6)) :=
  ⟨by decide, (checkWin_correct ["X", "X", "X", "", "", "", "", "", ""] (by decide)).1⟩

/-- C2: a legal move (game in progress, position in range, target cell empty,
symbol equal to `NextPlayer`) sets exactly the chosen cell to the mark,
flips `NextPlayer` to the strictly different opposite mark, is accepted
(a broadcast is due), and an immediate second application of the same
(position, symbol) pair is rejected as a no-op. -/
theorem makeMove_legal (game : Game) (position : Int) (symbol : String)
    (hb : game.Board.length = 9)
    (hover : game.GameOver = false)
    (hpos : 0 ≤ position ∧ position < 9)
    (hempty : cell game.Board position.toNat = "")
    (hsym : symbol = game.NextPlayer)
    (hmark : symbol = "X" ∨ symbol = "O") :
    cell (makeMoveGame game position symbol).1.Board position.toNat = symbol
    ∧ (∀ j, j ≠ position.toNat →
        cell (makeMoveGame game position symbol).1.Board j = cell game.Board j)
    ∧ (makeMoveGame game position symbol).1.NextPlayer = nextPlayer symbol
    ∧ (makeMoveGame game position symbol).1.NextPlayer ≠ symbol
    ∧ (makeMoveGame game position symbol).2.isSome = true
    ∧ makeMoveGame (makeMoveGame game position symbol).1 position symbol
        = ((makeMoveGame game position symbol).1, none) := by
  have hlt : position.toNat < game.Board.length := by omega
  have hnotrange : ¬(position < 0 ∨ 9 ≤ position) := by omega
  have hsymne : symbol ≠ "" := by
    rcases hmark with h | h <;> subst h <;> decide
  have hflip : nextPlayer symbol ≠ symbol := by
    rcases hmark with h | h <;> subst h <;> decide
  rw [makeMoveGame_accepted game position symbol hover hpos hempty hsym]
  have hcells : cell (game.Board.set position.toNat symbol) position.toNat = symbol :=
    cell_set_self game.Board position.toNat symbol hlt
  by_cases hw : checkWin (game.Board.set position.toNat symbol) = true
  · simp only [hw, if_true]
    refine ⟨hcells, fun j hj => cell_set_ne game.Board position.toNat j symbol hj,
      by trivial, hflip, by trivial, ?_⟩
    simp [makeMoveGame]
  · by_cases hd : checkDraw (game.Board.set position.toNat symbol) = true
    · simp only [hw, hd, Bool.false_eq_true, if_false, if_true]
      refine ⟨hcells, fun j hj => cell_set_ne game.Board position.toNat j symbol hj,
        by trivial, hflip, by trivial, ?_⟩
      simp [makeMoveGame]
    · simp only [hw, hd, Bool.false_eq_true, if_false]
      refine ⟨hcells, fun j hj => cell_set_ne game.Board position.toNat j symbol hj,
        by trivial, hflip, by trivial, ?_⟩
      simp only [makeMoveGame, hover, Bool.false_eq_true, if_false, if_neg hnotrange,
        hcells]
      rw [if_pos]
      simp [bne_iff_ne, hsymne]

theorem makeMove_legal_witness :
    cell (makeMoveGame newGame 0 "X").1.Board 0 = "X"
    ∧ (makeMoveGame newGame 0 "X").1.NextPlayer ≠ "X"
    ∧ makeMoveGame (makeMoveGame newGame 0 "X").1 0 "X"
        = ((makeMoveGame newGame 0 "X").1, none) := by
  have h := makeMove_legal newGame 0 "X" (by decide) rfl (by omega) (by decide) rfl
    (Or.inl rfl)
  exact ⟨h.1, h.2.2.2.1, h.2.2.2.2.2⟩

/-- Every failed validation guard of `makeMoveGame` yields the unchanged game
and no broadcast. -/
lemma makeMoveGame_rejected (game : Game) (position : Int) (symbol : String)
    (h : game.GameOver = true ∨ position < 0 ∨ 9 ≤ position ∨
      cell game.Board position.toNat ≠ "" ∨ symbol ≠ game.NextPlayer) :
    makeMoveGame game position symbol = (game, none) := by
  unfold makeMoveGame
  split_ifs with h1 h2 h3 h4 <;> try rfl
  exfalso
  simp only [bne_iff_ne, ne_eq, not_not] at h3 h4
  rcases h with h | h | h | h | h
  · exact h1 (by simp [h])
  · exact h2 (Or.inl h)
  · exact h2 (Or.inr h)
  · exact h h3
  · exact h h4

/-- Rejected per-game moves leave the whole server state unchanged and write
no message. -/
lemma makeMove_rejected (s : ServerState) (gameID : String) (game : Game)
    (position : Int) (symbol : String)
    (hg : lookupGame s gameID = some game)
    (hr : makeMoveGame game position symbol = (game, none)) :
    makeMove s gameID position symbol = (s, []) := by
  simp [makeMove, hg, hr]

/-- C3: an illegal move request against an existing game (game already over,
position outside the board, target cell occupied, or symbol different from
`NextPlayer`) leaves the server state — hence the board, `NextPlayer`,
`GameOver` and `Winner` of every game — unchanged and emits no broadcast
message to any connection. -/
theorem makeMove_illegal_noop (s : ServerState) (gameID : String) (game : Game)
    (position : Int) (symbol : String)
    (hg : lookupGame s gameID = some game)
    (hill : game.GameOver = true ∨ position < 0 ∨ 9 ≤ position ∨
      cell game.Board position.toNat ≠ "" ∨ symbol ≠ game.NextPlayer) :
    makeMove s gameID position symbol = (s, []) :=
  makeMove_rejected s gameID game position symbol hg
    (makeMoveGame_rejected game position symbol hill)

theorem makeMove_illegal_noop_witness :
    makeMove { games := [("g", newGame)], connections := [("g", [1, 2])] } "g" 0 "O"
      = ({ games := [("g", newGame)], connections := [("g", [1, 2])] }, []) :=
  makeMove_illegal_noop { games := [("g", newGame)], connections := [("g", [1, 2])] }
    "g" newGame 0 "O" rfl (by decide)

/-- C4: a terminal game (`GameOver = true`) is absorbing — every later
`makeMove` call, for any position and symbol, is a no-op: the state (board,
winner, `NextPlayer`, `GameOver`) never changes again and nothing is
broadcast. -/
theorem makeMove_terminal_absorbing (s : ServerState) (gameID : String) (game : Game)
    (position : Int) (symbol : String)
    (hg : lookupGame s gameID = some game)
    (hover : game.GameOver = true) :
    makeMove s gameID position symbol = (s, [])
    ∧ ∀ (moves : List (Int × String)),
        moves.foldl (fun st mv => (makeMove st gameID mv.1 mv.2).1) s = s := by
  have hstep : ∀ p sym, makeMove s gameID p sym = (s, []) := fun p sym =>
    makeMove_rejected s gameID game p sym hg
      (makeMoveGame_rejected game p sym (Or.inl hover))
  refine ⟨hstep position symbol, fun moves => ?_⟩
  induction moves with
  | nil => rfl
  | cons mv moves ih => simpa [hstep mv.1 mv.2] using ih

theorem makeMove_terminal_absorbing_witness :
    makeMove
      { games := [("g", { Board := ["X", "X", "X", "O", "O", "", "", "", ""],
                          NextPlayer := "O", GameOver := true, Winner := "X" })],
        connections := [("g", [1, 2])] } "g" 5 "O"
      = ({ games := [("g", { Board := ["X", "X", "X", "O", "O", "", "", "", ""],
                             NextPlayer := "O", GameOver := true, Winner := "X" })],
           connections := [("g", [1, 2])] }, []) :=
  (makeMove_terminal_absorbing
    { games := [("g", { Board := ["X", "X", "X", "O", "O", "", "", "", ""],
                        NextPlayer := "O", GameOver := true, Winner := "X" })],
      connections := [("g", [1, 2])] } "g"
    { Board := ["X", "X", "X", "O", "O", "", "", "", ""],
      NextPlayer := "O", GameOver := true, Winner := "X" } 5 "O" rfl rfl).1

/-- C7: `checkDraw` is true exactly when no cell is empty; and since
`makeMoveGame` evaluates `checkWin` before `checkDraw`, every accepted move
whose resulting board contains a winning line ends the game as won by the
moving mark (winner set, non-empty), never as a draw. -/
theorem checkDraw_correct (b : List String) (hb : b.length = 9) :
    (checkDraw b = true ↔ ∀ c ∈ b, c ≠ "")
    ∧ (∀ (game : Game) (position : Int) (symbol : String),
        (symbol = "X" ∨ symbol = "O") →
        (makeMoveGame game position symbol).2.isSome = true →
        checkWin (makeMoveGame game position symbol).1.Board = true →
        (makeMoveGame game position symbol).1.GameOver = true
        ∧ (makeMoveGame game position symbol).1.Winner = symbol
        ∧ (makeMoveGame game position symbol).1.Winner ≠ ""
        ∧ (makeMoveGame game position symbol).2 = some "GAME_OVER") := by
  constructor
  · simp [checkDraw, List.all_eq_true]
  · intro game position symbol hmark hsome hwin
    have hne : symbol ≠ "" := by rcases hmark with h | h <;> subst h <;> decide
    unfold makeMoveGame at *
    split_ifs at hsome hwin ⊢ with h1 h2 h3 h4
    all_goals try simp_all
    all_goals split_ifs at hsome hwin ⊢ <;> simp_all

theorem checkDraw_correct_witness :
    (checkDraw ["X", "O", "X", "X", "O", "X", "O", "X", "O"] = true ↔
      ∀ c ∈ (["X", "O", "X", "X", "O", "X", "O", "X", "O"] : List String), c ≠ "") :=
  (checkDraw_correct ["X", "O", "X", "X", "O", "X", "O", "X", "O"] (by decide)).1

/-- C8: `handleJoinGame` answers 200 exactly when the game id is registered
and 404 exactly when it is unknown, and it never changes the server state —
in particular an unknown id is never registered as a fresh game. -/
theorem handleJoinGame_spec (s : ServerState) (gameID : String) :
    ((handleJoinGame s gameID).1 = 200 ↔ (lookupGame s gameID).isSome = true)
    ∧ ((handleJoinGame s gameID).1 = 404 ↔ lookupGame s gameID = none)
    ∧ (handleJoinGame s gameID).2 = s := by
  unfold handleJoinGame
  cases h : lookupGame s gameID <;> simp

/-- C9: for a connection attaching to an existing game, the first (and only)
message written during attach is the snapshot of the current game state: the
payload is the `Game` record itself, so its board is cell-for-cell the current
board and its `NextPlayer` the current next mark — with no condition on
`GameOver`, i.e. even if the game is already over. -/
theorem handleWebSocket_first_message (s : ServerState) (gameID : String)
    (conn : Nat) (game : Game)
    (hg : lookupGame s gameID = some game) :
    (handleWebSocket s gameID conn).2 = [(conn, game)]
    ∧ ((handleWebSocket s gameID conn).2.head?.map fun m => (m.2.Board, m.2.NextPlayer))
        = some (game.Board, game.NextPlayer) := by
  simp [handleWebSocket, hg]

theorem handleWebSocket_first_message_witness :
    (handleWebSocket
        { games := [("g", { Board := ["X", "X", "X", "O", "O", "", "", "", ""],
                            NextPlayer := "O", GameOver := true, Winner := "X" })],
          connections := [] } "g" 7).2
      = [(7, { Board := ["X", "X", "X", "O", "O", "", "", "", ""],
               NextPlayer := "O", GameOver := true, Winner := "X" })] :=
  (handleWebSocket_first_message
    { games := [("g", { Board := ["X", "X", "X", "O", "O", "", "", "", ""],
                        NextPlayer := "O", GameOver := true, Winner := "X" })],
      connections := [] } "g" 7
    { Board := ["X", "X", "X", "O", "O", "", "", "", ""],
      NextPlayer := "O", GameOver := true, Winner := "X" } rfl).1

/-- C10: for a game id absent from the registry, `makeMove` is a total no-op
(the nil guard returns before any mutation or broadcast), and
`broadcastGameState` likewise sends nothing. -/
theorem makeMove_unknown_noop (s : ServerState) (gameID : String) (position : Int)
    (symbol : String) (messageType : String)
    (h : lookupGame s gameID = none) :
    makeMove s gameID position symbol = (s, [])
    ∧ broadcastGameState s gameID messageType = [] := by
  constructor
  · simp [makeMove, h]
  · simp [broadcastGameState, h]

theorem makeMove_unknown_noop_witness :
    makeMove { games := [], connections := [("g", [1])] } "g" 4 "X"
      = ({ games := [], connections := [("g", [1])] }, [])
    ∧ broadcastGameState { games := [], connections := [("g", [1])] } "g" "MOVE" = [] :=
  makeMove_unknown_noop { games := [], connections := [("g", [1])] } "g" 4 "X" "MOVE" rfl

/-- C5 counterexample: the code assigns marks on the client, from the URL, not
at attach. A session that has seen no attachment gives its first attaching
connection mark "O" (it joined through a shared link), and a second connection
joining the same session also gets "O": two connections attached to the same
session hold the same mark. -/
theorem attach_mark_counterexample :
    gameConnections { games := [("g", newGame)], connections := [] } "g" = []
    ∧ (clientSetup { games := [("g", newGame)], connections := [] }
        (some "g") 1 (fun _ => 0)).2 = some "O"
    ∧ (clientSetup
        (clientSetup { games := [("g", newGame)], connections := [] }
          (some "g") 1 (fun _ => 0)).1
        (some "g") 2 (fun _ => 0)).2 = some "O"
    ∧ gameConnections
        (clientSetup
          (clientSetup { games := [("g", newGame)], connections := [] }
            (some "g") 1 (fun _ => 0)).1
          (some "g") 2 (fun _ => 0)).1 "g" = [1, 2] :=
  ⟨rfl, rfl, rfl, rfl⟩

/-- C5 amended: the server assigns no mark at attach; each client self-assigns
its mark from its own URL — "O" whenever it joins an existing game through a
`?game=` link (whether or not it is the session's first attachment), and "X"
whenever it creates the game. -/
theorem clientSetup_marks (s : ServerState) (id : String) (conn : Nat)
    (picks : Nat → Fin 62)
    (hid : (lookupGame s id).isSome = true) :
    (clientSetup s (some id) conn picks).2 = some "O"
    ∧ (clientSetup s none conn picks).2 = some "X" := by
  constructor
  · cases h : lookupGame s id with
    | none => rw [h] at hid; simp at hid
    | some g => simp [clientSetup, handleJoinGame, h]
  · simp [clientSetup]

theorem clientSetup_marks_witness :
    (clientSetup { games := [("g", newGame)], connections := [] }
        (some "g") 1 (fun _ => 0)).2 = some "O"
    ∧ (clientSetup { games := [("g", newGame)], connections := [] }
        none 1 (fun _ => 0)).2 = some "X" :=
  clientSetup_marks { games := [("g", newGame)], connections := [] } "g" 1
    (fun _ => 0) rfl

/-- C6 counterexample: `generateGameID` draws six random characters without
consulting the registry, so the returned id can equal an id already present:
with every draw equal to 0 it returns "game_aaaaaa" even when the registry
already holds "game_aaaaaa". -/
theorem createGame_collision_counterexample :
    (handleCreateGame (fun _ => 0)
        { games := [("game_aaaaaa", newGame)], connections := [] }).1 = "game_aaaaaa"
    ∧ lookupGame { games := [("game_aaaaaa", newGame)], connections := [] }
        "game_aaaaaa" = some newGame :=
  ⟨rfl, rfl⟩

/-- C6 amended: `handleCreateGame` always succeeds and registers, under the id
it returns, a game with a board of exactly 9 empty cells, next mark "X" and
status in progress (`GameOver = false`, empty winner); the id is "game_" plus
six pseudo-random alphanumeric characters drawn without consulting the
registry, so it is not guaranteed distinct from ids already present (on a
collision the new game shadows the old one). -/
theorem handleCreateGame_spec (picks : Nat → Fin 62) (s : ServerState) :
    lookupGame (handleCreateGame picks s).2 (handleCreateGame picks s).1 = some newGame
    ∧ newGame.Board = List.replicate 9 ""
    ∧ newGame.Board.length = 9
    ∧ newGame.NextPlayer = "X"
    ∧ newGame.GameOver = false
    ∧ newGame.Winner = ""
    ∧ (handleCreateGame picks s).1 = "game_" ++ randomString picks 6 := by
  refine ⟨?_, rfl, by decide, rfl, rfl, rfl, rfl⟩
  simp [handleCreateGame, lookupGame, List.find?_cons]
